import Mathlib

/-!
Shallow embedding of the concurrent game-of-life core of `mrizaln/game-of-life`
(`src/source/game.hpp`, `src/source/unrolled_matrix.hpp`, `src/source/simulation.hpp`).

Cells are bytes (`std::uint8_t`) modelled as `Nat`; machine `int`/`long`/`ssize_t`
coordinates are modelled as `Int`; the C++ truncating `%` and `/` are `Int.tmod` and
`Int.tdiv`.  The parallel schedulers write disjoint rows, so each strategy is modelled
as a sequential fold over the exact list of coordinates its workers visit; the worker
count (`m_threadPool.size()`, i.e. `std::thread::hardware_concurrency()`) is a
parameter `poolSize` of the grid.
-/

/-- Cell values (`Grid::Cell = std::uint8_t`) modelled as `Nat`. -/
abbrev Cell := Nat

/-- `Grid::LIVE_STATE = 0xff`. -/
def LIVE_STATE : Cell := 0xff

/-- `Grid::DEAD_STATE = 0x00`. -/
def DEAD_STATE : Cell := 0x00

/-- `UnrolledMatrix<Cell>`: a flat row-major buffer with signed dimensions. -/
structure UnrolledMatrix where
  m_width : Int
  m_height : Int
  m_mat : List Cell
  deriving DecidableEq

namespace UnrolledMatrix

/-- `UnrolledMatrix::get(col, row)`: bounds-checked access; the source throws
`std::out_of_range` when `col < 0 || row < 0 || col >= m_width || row >= m_height`,
modelled as `none`; otherwise it indexes `m_mat[row * m_width + col]`. -/
def get (m : UnrolledMatrix) (col row : Int) : Option Cell :=
  if col < 0 ∨ row < 0 ∨ col ≥ m.m_width ∨ row ≥ m.m_height then none
  else m.m_mat[(row * m.m_width + col).toNat]?

/-- Total view of `get`, used where the source reads through a reference that the
schedulers only ever form at in-range coordinates. -/
def read (m : UnrolledMatrix) (col row : Int) : Cell :=
  (m.get col row).getD 0

/-- Assignment through the reference returned by `UnrolledMatrix::operator()`;
the schedulers only ever write at in-range coordinates. -/
def set (m : UnrolledMatrix) (col row : Int) (v : Cell) : UnrolledMatrix :=
  { m with m_mat := m.m_mat.set (row * m.m_width + col).toNat v }

/-- `UnrolledMatrix::UnrolledMatrix(width, height)`: constructs `m_mat(width * height)`.
The product is a `ssize_t` cast to the vector's `size_t` size: a negative product
becomes a huge allocation that throws (`none`); otherwise a zero-filled buffer of
`width * height` elements is produced with NO validation of the dimensions. -/
def create (w h : Int) : Option UnrolledMatrix :=
  if w * h < 0 then none
  else some { m_width := w, m_height := h, m_mat := List.replicate (w * h).toNat 0 }

end UnrolledMatrix

/-- Integers in `[a, b)`, in order: models `std::views::iota(a, b)`. -/
def intRange (a b : Int) : List Int :=
  (List.range (b - a).toNat).map fun k => a + (k : Int)

/-- Row schedule of worker `i` in `Grid::processInterleaved`:
`chunkSize = m_height / concurrencyLevel` (truncating `long` division),
`numSteps = chunkSize + 1` when `chunkSize * concurrencyLevel + i < m_height` else
`chunkSize`, and the rows visited are `y = count * concurrencyLevel + i` for
`count` in `[0, numSteps)`. -/
def interleavedWorkerRows (H : Int) (C : Nat) (i : Nat) : List Int :=
  let chunkSize := H.tdiv (C : Int)
  let maxSize := chunkSize * (C : Int) + (i : Int)
  let numSteps := if maxSize < H then chunkSize + 1 else chunkSize
  (List.range numSteps.toNat).map fun count => (count : Int) * (C : Int) + (i : Int)

/-- All rows visited by `Grid::processInterleaved` with worker count `C`
(`C = m_threadPool.size()`), worker by worker. -/
def interleavedRows (H : Int) (C : Nat) : List Int :=
  ((List.range C).map (interleavedWorkerRows H C)).flatten

/-- All rows visited by `Grid::processChunked` with worker count `C`:
`concurrencyLevel = min(m_threadPool.size(), m_height)`,
`chunkSize = m_height / concurrencyLevel` (truncating `long` division), and worker `i`
visits `[i * chunkSize, min(i * chunkSize + chunkSize, m_height))`. -/
def chunkedRows (H : Int) (C : Nat) : List Int :=
  let concurrencyLevel := min (C : Int) H
  let chunkSize := H.tdiv concurrencyLevel
  ((List.range concurrencyLevel.toNat).map fun i =>
    let chunkBegin := (i : Int) * chunkSize
    let chunkEnd := min (chunkBegin + chunkSize) H
    intRange chunkBegin chunkEnd).flatten

/-- `Grid::UpdateStrategy`. -/
inductive UpdateStrategy where
  | INTERLEAVED
  | CHUNKED
  deriving DecidableEq

/-- `Grid::BufferType`. -/
inductive BufferType where
  | FRONT
  | BACK
  deriving DecidableEq

/-- The `Grid` class: double buffer, dimensions, strategy; `poolSize` models the
size of the owned `m_threadPool` (fixed at construction). -/
structure Grid where
  m_front : UnrolledMatrix
  m_back : UnrolledMatrix
  poolSize : Nat
  m_width : Int
  m_height : Int
  m_updateStrategy : UpdateStrategy
  deriving DecidableEq

namespace Grid

/-- `Grid::isInBound(x, y)`: `x >= 0 && x < m_width && y >= 0 && y < m_height`. -/
def isInBound (g : Grid) (x y : Int) : Bool :=
  decide (x ≥ 0) && decide (x < g.m_width) && decide (y ≥ 0) && decide (y < g.m_height)

/-- `Grid::get(x, y, type)`: forwards to the chosen buffer's bounds-checked
`UnrolledMatrix::get` with NO toroidal remapping. -/
def get (g : Grid) (x y : Int) (type : BufferType := BufferType.FRONT) : Option Cell :=
  match type with
  | BufferType.FRONT => g.m_front.get x y
  | BufferType.BACK => g.m_back.get x y

/-- The effective-coordinate expression of `Grid::operator()`:
`(m + x % m) % m` with the C++ truncating `%`. -/
def effCoord (m x : Int) : Int :=
  (m + x.tmod m).tmod m

/-- `Grid::operator()(x, y) const`: wrap-around boundary condition — if `(x, y)` is
out of bounds, access `get(effX, effY)`; otherwise access `get(x, y)` directly. -/
def opIndex (g : Grid) (x y : Int) : Option Cell :=
  if g.isInBound x y then g.get x y
  else g.get (effCoord g.m_width x) (effCoord g.m_height y)

/-- Total view of `opIndex` (the reference the source reads through). -/
def read (g : Grid) (x y : Int) : Cell :=
  (g.opIndex x y).getD 0

/-- The `checkState` lambda in `Grid::checkNeighbors`: `(*this)(x, y) == LIVE_STATE`. -/
def checkState (g : Grid) (x y : Int) : Bool :=
  decide (g.read x y = LIVE_STATE)

/-- `Grid::checkNeighbors(x, y)`: the sum of the 8 neighbor `checkState` tests. -/
def checkNeighbors (g : Grid) (x y : Int) : Nat :=
  (g.checkState (x - 1) (y - 1)).toNat + (g.checkState x (y - 1)).toNat
    + (g.checkState (x + 1) (y - 1)).toNat
    + (g.checkState (x - 1) y).toNat + (g.checkState (x + 1) y).toNat
    + (g.checkState (x - 1) (y + 1)).toNat + (g.checkState x (y + 1)).toNat
    + (g.checkState (x + 1) (y + 1)).toNat

/-- The decay expression of `Grid::updateState`:
`(cell == 0 || cell - 1 == 0) ? DEAD_STATE : cell - 1`.  On `Nat` this agrees with
the spec's `decay(v) = (v == 0) ? 0 : v - 1`. -/
def decay (cell : Cell) : Cell :=
  if cell = 0 ∨ cell - 1 = 0 then DEAD_STATE else cell - 1

/-- The per-cell branch structure of `Grid::updateState`'s lambda: `cell` is
`m_front(x, y)`, `neigbor` is `checkNeighbors(x, y)`. -/
def transition (cell : Cell) (neigbor : Nat) : Cell :=
  if cell = LIVE_STATE then
    if neigbor < 2 then decay cell
    else if neigbor ≤ 3 then LIVE_STATE
    else decay cell
  else
    if neigbor = 3 then LIVE_STATE
    else decay cell

/-- `Grid::process_multi(func)`: dispatches the row schedule by `m_updateStrategy`
and applies `func` to every `(x, y)` with `x` in `[0, m_width)` on each scheduled
row.  The workers write disjoint rows and `func` never reads what another worker
writes, so the fork-join execution equals this sequential fold. -/
def process_multi (g : Grid) (func : Grid → Int → Int → Grid) : Grid :=
  let rows := match g.m_updateStrategy with
    | UpdateStrategy.INTERLEAVED => interleavedRows g.m_height g.poolSize
    | UpdateStrategy.CHUNKED => chunkedRows g.m_height g.poolSize
  rows.foldl (fun acc y => (intRange 0 g.m_width).foldl (fun a x => func a x y) acc) g

/-- `Grid::updateState()`: for each scheduled cell, write
`transition(m_front(x, y), checkNeighbors(x, y))` into `m_back`, then
`m_front.swap(m_back)`. -/
def updateState (g : Grid) : Grid :=
  let done := g.process_multi fun a x y =>
    { a with m_back := a.m_back.set x y (transition (a.m_front.read x y) (a.checkNeighbors x y)) }
  { done with m_front := done.m_back, m_back := done.m_front }

/-- `Grid::populate(density)`: for each scheduled cell,
`spawn = shouldSpawn(x, y, density) && getRandomBool(density)` and both buffers are
assigned `spawn ? LIVE_STATE : DEAD_STATE`.  The perlin-noise test `shouldSpawn` and
the RNG draw `getRandomBool` are floating-point/stateful collaborators, modelled as
boolean oracles indexed by the cell. -/
def populate (g : Grid) (shouldSpawn getRandomBool : Int → Int → Bool) : Grid :=
  g.process_multi fun a x y =>
    let spawn := shouldSpawn x y && getRandomBool x y
    let v := if spawn then LIVE_STATE else DEAD_STATE
    { a with m_front := a.m_front.set x y v, m_back := a.m_back.set x y v }

/-- `Grid::Grid(width, height, updateStrategy)`: member-initializes
`m_front{width, height}` and `m_back{width, height}` and starts the thread pool.
The constructor performs NO validation of `width`/`height` beyond what
`UnrolledMatrix`'s vector allocation does. -/
def construct (w h : Int) (s : UpdateStrategy) (pool : Nat) : Option Grid :=
  match UnrolledMatrix.create w h, UnrolledMatrix.create w h with
  | some f, some b =>
      some { m_front := f, m_back := b, poolSize := pool, m_width := w, m_height := h,
             m_updateStrategy := s }
  | _, _ => none

/-- Well-formedness of a grid: positive dimensions, buffers with matching dimensions
and full backing storage.  Holds for every grid the program constructs with positive
dimensions. -/
def Wf (g : Grid) : Prop :=
  0 < g.m_width ∧ 0 < g.m_height
    ∧ g.m_front.m_width = g.m_width ∧ g.m_front.m_height = g.m_height
    ∧ g.m_back.m_width = g.m_width ∧ g.m_back.m_height = g.m_height
    ∧ g.m_front.m_mat.length = (g.m_width * g.m_height).toNat
    ∧ g.m_back.m_mat.length = (g.m_width * g.m_height).toNat

instance (g : Grid) : Decidable g.Wf := by
  unfold Wf; infer_instance

end Grid

/-- The `Simulation` driver state: the guarded grid, the atomic delay (ms), the pause
flag, the wake flag, and the ignore-delay flag. -/
structure Simulation where
  m_grid : Grid
  m_delay : Nat
  m_ignoreDelay : Bool
  m_paused : Bool
  m_wakeFlag : Bool
  deriving DecidableEq

namespace Simulation

/-- `Simulation::wakeUp()`: sets `m_wakeFlag` (and notifies the condition variable). -/
def wakeUp (s : Simulation) : Simulation :=
  { s with m_wakeFlag := true }

/-- `Simulation::setDelay(delay)`: `if (m_delay > delay) { m_delay = delay; wakeUp(); }
else if (m_delay != delay) { m_delay = delay; }`. -/
def setDelay (s : Simulation) (delay : Nat) : Simulation :=
  if s.m_delay > delay then wakeUp { s with m_delay := delay }
  else if s.m_delay ≠ delay then { s with m_delay := delay }
  else s

/-- One iteration of the `Simulation::launch` loop body: under the grid lock,
`if (!m_paused) grid.updateState();` then the caller's callback (an observer), then
the sleep routine which waits and clears `m_wakeFlag` when
`paused || !m_ignoreDelay`. -/
def tickIter (s : Simulation) : Simulation :=
  let s1 := if s.m_paused = false then { s with m_grid := s.m_grid.updateState } else s
  if s1.m_paused || !s1.m_ignoreDelay then { s1 with m_wakeFlag := false } else s1

/-- `Simulation::forceUpdate()`: `wakeUp(); if (m_paused) { m_grid.write(&Grid::updateState); }`. -/
def forceUpdate (s : Simulation) : Simulation :=
  let s1 := wakeUp s
  if s1.m_paused then { s1 with m_grid := s1.m_grid.updateState } else s1

end Simulation

/-- Helper to build a concrete grid with both buffers fully backed. -/
def mkGrid (w h : Int) (s : UpdateStrategy) (pool : Nat) (f b : List Cell) : Grid :=
  { m_front := { m_width := w, m_height := h, m_mat := f },
    m_back := { m_width := w, m_height := h, m_mat := b },
    poolSize := pool, m_width := w, m_height := h, m_updateStrategy := s }

/-- 1×3 CHUNKED grid on a 2-worker pool, front all `LIVE`, back holding stale `7`s. -/
def gridC1 : Grid := mkGrid 1 3 UpdateStrategy.CHUNKED 2 [255, 255, 255] [7, 7, 7]

/-- The C2 pair: identical buffers, strategies differ, 2-worker pool. -/
def gridC2I : Grid := mkGrid 1 3 UpdateStrategy.INTERLEAVED 2 [255, 255, 255] [9, 9, 9]

/-- CHUNKED twin of `gridC2I`. -/
def gridC2C : Grid := mkGrid 1 3 UpdateStrategy.CHUNKED 2 [255, 255, 255] [9, 9, 9]

/-- 1×3 CHUNKED grid whose stale back value `128` exceeds the front value `16` at row 2. -/
def gridC5 : Grid := mkGrid 1 3 UpdateStrategy.CHUNKED 2 [0, 0, 16] [0, 0, 128]

/-- 1×3 CHUNKED grid with desynchronized buffers at row 2 before `populate`. -/
def gridC6 : Grid := mkGrid 1 3 UpdateStrategy.CHUNKED 2 [1, 2, 5] [3, 4, 7]

/-- C1: the claim says that after `updateState()` the new front buffer equals, at EVERY
cell, the transition rule applied to the old front buffer.  On a 1×3 CHUNKED grid with
a 2-worker pool, `processChunked` computes `chunkSize = 3 / 2 = 1` and visits only rows
`[0,1)` and `[1,2)`: row 2 is never written, so after the swap the front holds the
stale back value `7` there, while the rule (all-LIVE front, 8 live toroidal neighbors,
so decay) requires `254`. -/
theorem updateState_chunked_skips_row :
    (Grid.updateState gridC1).m_front.read 0 2 = 7
      ∧ Grid.transition (gridC1.m_front.read 0 2) (gridC1.checkNeighbors 0 2) = 254
      ∧ ¬ (Grid.updateState gridC1).m_front.read 0 2
          = Grid.transition (gridC1.m_front.read 0 2) (gridC1.checkNeighbors 0 2) := by
  refine ⟨by decide, by decide, by decide⟩

/-- C2: the claim says INTERLEAVED and CHUNKED produce bit-for-bit identical results
from the same front buffer, for every worker count.  With 2 workers on height 3,
INTERLEAVED covers rows 0, 2, 1 and yields `[254, 254, 254]`, but CHUNKED covers only
rows 0, 1 and yields `[254, 254, 9]` — the buffers disagree at row 2. -/
theorem strategies_disagree :
    gridC2I.m_front = gridC2C.m_front ∧ gridC2I.m_back = gridC2C.m_back
      ∧ (Grid.updateState gridC2I).m_front.read 0 2 = 254
      ∧ (Grid.updateState gridC2C).m_front.read 0 2 = 9
      ∧ ¬ (Grid.updateState gridC2I).m_front = (Grid.updateState gridC2C).m_front := by
  refine ⟨by decide, by decide, by decide, by decide, by decide⟩

/-- C3: the claim says the row partition covers every row in `[0, H)` exactly once and
that CHUNKED worker `i` gets `[i*⌈H/C⌉, min((i+1)*⌈H/C⌉, H))`.  The code instead uses
`chunkSize = ⌊H/C⌋`: with `H = 3`, `C = 2` the chunked schedule is `[0, 1]` — row 2 is
covered by no worker (the claimed partition would be `[0, 2)`, `[2, 3)`), while the
interleaved schedule `[0, 2, 1]` does cover every row exactly once. -/
theorem chunked_partition_incomplete :
    chunkedRows 3 2 = [0, 1] ∧ ¬ (2 : Int) ∈ chunkedRows 3 2
      ∧ interleavedRows 3 2 = [0, 2, 1] := by
  refine ⟨by decide, by decide, by decide⟩

/-- C5: the claim says one `updateState()` step leaves every cell either `LIVE` or at
most its previous front value.  On `gridC5` (CHUNKED, 2 workers) row 2 is skipped, so
after the swap the front holds the stale back value `128`, which exceeds the previous
front value `16` and is not `LIVE`. -/
theorem updateState_value_increases :
    gridC5.m_front.read 0 2 = 16 ∧ (Grid.updateState gridC5).m_front.read 0 2 = 128
      ∧ ¬ ((Grid.updateState gridC5).m_front.read 0 2 = LIVE_STATE
            ∨ (Grid.updateState gridC5).m_front.read 0 2 ≤ gridC5.m_front.read 0 2) := by
  refine ⟨by decide, by decide, by decide⟩

/-- C6: the claim says `populate` assigns EVERY cell (LIVE iff both tests pass) and
leaves front and back identical.  On `gridC6` (CHUNKED, 2 workers) with both oracles
returning `true` — so every assigned cell must become `LIVE` — row 2 is never visited:
the front keeps `5`, the back keeps `7`, the buffers are not identical and the cell
was not assigned per the tests. -/
theorem populate_leaves_buffers_desynced :
    (gridC6.populate (fun _ _ => true) (fun _ _ => true)).m_front.read 0 2 = 5
      ∧ (gridC6.populate (fun _ _ => true) (fun _ _ => true)).m_back.read 0 2 = 7
      ∧ ¬ (gridC6.populate (fun _ _ => true) (fun _ _ => true)).m_front
          = (gridC6.populate (fun _ _ => true) (fun _ _ => true)).m_back := by
  refine ⟨by decide, by decide, by decide⟩

/-- C7: the claim says construction with `width <= 0` or `height <= 0` fails before any
worker thread starts and a zero-area grid is never produced.  The constructor performs
no such check: `Grid(0, 3, INTERLEAVED)` succeeds and yields a grid whose front buffer
has zero elements (and the thread pool is started regardless). -/
theorem construct_accepts_zero_width :
    (Grid.construct 0 3 UpdateStrategy.INTERLEAVED 4).isSome = true
      ∧ (Grid.construct 0 3 UpdateStrategy.INTERLEAVED 4).map
          (fun g => g.m_front.m_mat.length) = some 0
      ∧ (Grid.construct 0 3 UpdateStrategy.INTERLEAVED 4).map (fun g => g.m_width)
          = some 0 := by
  refine ⟨by decide, by decide, by decide⟩

/-- Concrete simulation state for the C8 counterexample: outstanding delay 5 ms. -/
def simC8 : Simulation :=
  { m_grid := gridC2I, m_delay := 5, m_ignoreDelay := false, m_paused := false,
    m_wakeFlag := false }

/-- C8 counterexample: the claim says the delay accepted by `setDelay` is never below a
small positive floor, in particular never zero.  `setDelay(0)` on an outstanding delay
of 5 ms stores `0` — no floor is enforced. -/
theorem setDelay_accepts_zero :
    (simC8.setDelay 0).m_delay = 0 := by
  decide

/-- C8 (amended): `setDelay(d)` always stores `d` as the new delay, raises the wake
signal exactly when `d` is strictly smaller than the outstanding delay (the flag stays
raised if it already was), and touches nothing else — but no positive floor is
enforced on `d`. -/
theorem setDelay_stores_and_wakes (s : Simulation) (d : Nat) :
    (s.setDelay d).m_delay = d
      ∧ (s.setDelay d).m_wakeFlag = (s.m_wakeFlag || decide (d < s.m_delay))
      ∧ (s.setDelay d).m_paused = s.m_paused
      ∧ (s.setDelay d).m_grid = s.m_grid := by
  unfold Simulation.setDelay Simulation.wakeUp
  by_cases h1 : s.m_delay > d
  · simp [h1]
  · by_cases h2 : s.m_delay = d
    · simp [h1, h2]
    · simp [h1, h2]

/-- Concrete paused simulation state for the C9 witness. -/
def simC9 : Simulation :=
  { m_grid := gridC2I, m_delay := 100, m_ignoreDelay := false, m_paused := true,
    m_wakeFlag := false }

/-- C9: while `m_paused` is true, an iteration of the tick loop leaves the grid
untouched (no `updateState()` call), and `forceUpdate()` performs exactly one
`updateState()` on the grid without changing the pause flag. -/
theorem paused_tick_and_forceUpdate (s : Simulation) (h : s.m_paused = true) :
    (s.tickIter).m_grid = s.m_grid
      ∧ (s.forceUpdate).m_grid = s.m_grid.updateState
      ∧ (s.forceUpdate).m_paused = s.m_paused := by
  unfold Simulation.tickIter Simulation.forceUpdate Simulation.wakeUp
  simp [h]

/-- C9 witness: the paused-state theorem applied to the concrete state `simC9`. -/
theorem paused_tick_and_forceUpdate_witness :
    simC9.m_paused = true
      ∧ ((simC9.tickIter).m_grid = simC9.m_grid
          ∧ (simC9.forceUpdate).m_grid = simC9.m_grid.updateState
          ∧ (simC9.forceUpdate).m_paused = simC9.m_paused) :=
  ⟨by decide, paused_tick_and_forceUpdate simC9 (by decide)⟩

/-- Negating the dividend negates the C-style truncating remainder. -/
theorem tmod_neg_left (a b : Int) : (-a).tmod b = -(a.tmod b) := by
  rw [Int.tmod_def, Int.tmod_def, Int.neg_tdiv]
  ring

/-- The truncating remainder by a positive modulus is strictly above `-m`. -/
theorem neg_lt_tmod (x m : Int) (hm : 0 < m) : -m < x.tmod m := by
  rcases le_or_lt 0 x with hx | hx
  · have h := Int.tmod_nonneg m hx
    omega
  · have h1 : x.tmod m = -((-x).tmod m) := by
      rw [tmod_neg_left, neg_neg]
    have h2 := Int.tmod_lt_of_pos (-x) hm
    omega

/-- The source's `(m + x % m) % m` (truncating `%`) equals the Euclidean modulo. -/
theorem effCoord_eq_emod (m x : Int) (hm : 0 < m) : Grid.effCoord m x = x % m := by
  unfold Grid.effCoord
  have h2 : x.tmod m < m := Int.tmod_lt_of_pos x hm
  have h1 : -m < x.tmod m := neg_lt_tmod x m hm
  rw [Int.tmod_eq_emod (by omega) (le_of_lt hm)]
  conv_rhs => rw [show x = x.tmod m + m * x.tdiv m from (Int.tmod_add_tdiv x m).symm]
  rw [Int.add_mul_emod_self_left, show m + x.tmod m = x.tmod m + m * 1 by ring,
    Int.add_mul_emod_self_left]

/-- Unfolding of `Grid::isInBound`. -/
theorem isInBound_iff (g : Grid) (x y : Int) :
    g.isInBound x y = true ↔ (0 ≤ x ∧ x < g.m_width ∧ 0 ≤ y ∧ y < g.m_height) := by
  simp [Grid.isInBound, and_assoc]

/-- `Grid::operator()` resolves every coordinate pair by Euclidean modulo. -/
theorem opIndex_emod (g : Grid) (hw : 0 < g.m_width) (hh : 0 < g.m_height) (x y : Int) :
    g.opIndex x y = g.get (x % g.m_width) (y % g.m_height) := by
  unfold Grid.opIndex
  by_cases hb : g.isInBound x y = true
  · rw [if_pos hb]
    rw [isInBound_iff] at hb
    obtain ⟨h1, h2, h3, h4⟩ := hb
    rw [Int.emod_eq_of_lt h1 h2, Int.emod_eq_of_lt h3 h4]
  · rw [if_neg hb, effCoord_eq_emod _ _ hw, effCoord_eq_emod _ _ hh]

/-- Euclidean modulo of `-1` by a positive modulus. -/
theorem neg_one_emod (m : Int) (hm : 0 < m) : (-1) % m = m - 1 := by
  rw [show (-1 : Int) = (m - 1) + m * (-1) by ring, Int.add_mul_emod_self_left,
    Int.emod_eq_of_lt (by omega) (by omega)]

/-- C4: for every grid with positive dimensions and all integer coordinates, the
effective coordinate of cell access is `((width + x % width) % width,
(height + y % height) % height)` (truncating `%`), which lies in
`[0, width) × [0, height)` and equals the Euclidean modulo even for negative
operands; consequently `operator()` at `(-1, y)` equals `operator()` at
`(width - 1, y)`, at `(width, y)` equals `(0, y)`, and symmetrically on the y-axis. -/
theorem toroidal_access (g : Grid) (hw : 0 < g.m_width) (hh : 0 < g.m_height) :
    (∀ x y : Int,
        (0 ≤ Grid.effCoord g.m_width x ∧ Grid.effCoord g.m_width x < g.m_width)
      ∧ (0 ≤ Grid.effCoord g.m_height y ∧ Grid.effCoord g.m_height y < g.m_height)
      ∧ Grid.effCoord g.m_width x = x % g.m_width
      ∧ Grid.effCoord g.m_height y = y % g.m_height
      ∧ g.opIndex x y = g.get (Grid.effCoord g.m_width x) (Grid.effCoord g.m_height y))
  ∧ (∀ y : Int, 0 ≤ y → y < g.m_height →
        g.opIndex (-1) y = g.opIndex (g.m_width - 1) y
      ∧ g.opIndex g.m_width y = g.opIndex 0 y)
  ∧ (∀ x : Int, 0 ≤ x → x < g.m_width →
        g.opIndex x (-1) = g.opIndex x (g.m_height - 1)
      ∧ g.opIndex x g.m_height = g.opIndex x 0) := by
  have hwz : g.m_width ≠ 0 := by omega
  have hhz : g.m_height ≠ 0 := by omega
  refine ⟨fun x y => ?_, fun y hy0 hyh => ?_, fun x hx0 hxw => ?_⟩
  · refine ⟨?_, ?_, effCoord_eq_emod _ _ hw, effCoord_eq_emod _ _ hh, ?_⟩
    · rw [effCoord_eq_emod _ _ hw]
      exact ⟨Int.emod_nonneg x hwz, Int.emod_lt_of_pos x hw⟩
    · rw [effCoord_eq_emod _ _ hh]
      exact ⟨Int.emod_nonneg y hhz, Int.emod_lt_of_pos y hh⟩
    · rw [opIndex_emod g hw hh, effCoord_eq_emod _ _ hw, effCoord_eq_emod _ _ hh]
  · constructor
    · have e2 : (g.m_width - 1) % g.m_width = g.m_width - 1 :=
        Int.emod_eq_of_lt (by omega) (by omega)
      rw [opIndex_emod g hw hh, opIndex_emod g hw hh, neg_one_emod _ hw, e2]
    · rw [opIndex_emod g hw hh, opIndex_emod g hw hh, Int.emod_self, Int.zero_emod]
  · constructor
    · have e2 : (g.m_height - 1) % g.m_height = g.m_height - 1 :=
        Int.emod_eq_of_lt (by omega) (by omega)
      rw [opIndex_emod g hw hh, opIndex_emod g hw hh, neg_one_emod _ hh, e2]
    · rw [opIndex_emod g hw hh, opIndex_emod g hw hh, Int.emod_self, Int.zero_emod]

/-- A wellformed 3×2 grid used to instantiate the hypothesis-bearing theorems. -/
def gridW : Grid := mkGrid 3 2 UpdateStrategy.INTERLEAVED 4 [255, 0, 1, 0, 255, 2] [0, 0, 0, 0, 0, 0]

/-- C4 witness: `toroidal_access` applied to the concrete wellformed grid `gridW`. -/
theorem toroidal_access_witness :
    (0 < gridW.m_width ∧ 0 < gridW.m_height)
  ∧ ((∀ x y : Int,
        (0 ≤ Grid.effCoord gridW.m_width x ∧ Grid.effCoord gridW.m_width x < gridW.m_width)
      ∧ (0 ≤ Grid.effCoord gridW.m_height y ∧ Grid.effCoord gridW.m_height y < gridW.m_height)
      ∧ Grid.effCoord gridW.m_width x = x % gridW.m_width
      ∧ Grid.effCoord gridW.m_height y = y % gridW.m_height
      ∧ gridW.opIndex x y
          = gridW.get (Grid.effCoord gridW.m_width x) (Grid.effCoord gridW.m_height y))
    ∧ (∀ y : Int, 0 ≤ y → y < gridW.m_height →
        gridW.opIndex (-1) y = gridW.opIndex (gridW.m_width - 1) y
      ∧ gridW.opIndex gridW.m_width y = gridW.opIndex 0 y)
    ∧ (∀ x : Int, 0 ≤ x → x < gridW.m_width →
        gridW.opIndex x (-1) = gridW.opIndex x (gridW.m_height - 1)
      ∧ gridW.opIndex x gridW.m_height = gridW.opIndex x 0)) :=
  ⟨⟨by decide, by decide⟩, toroidal_access gridW (by decide) (by decide)⟩

/-- In-bounds access into a fully backed buffer succeeds. -/
theorem get_isSome_of_inBound (g : Grid) (h : g.Wf) (x y : Int)
    (hb : g.isInBound x y = true) : (Grid.get g x y).isSome = true := by
  obtain ⟨hw, hh, hfw, hfh, _, _, hflen, _⟩ := h
  rw [isInBound_iff] at hb
  obtain ⟨h1, h2, h3, h4⟩ := hb
  show (g.m_front.get x y).isSome = true
  unfold UnrolledMatrix.get
  rw [hfw, hfh, if_neg (by push_neg; exact ⟨h1, h3, h2, h4⟩)]
  have hlt : y * g.m_width + x < g.m_width * g.m_height := by
    nlinarith [mul_le_mul_of_nonneg_right (show y ≤ g.m_height - 1 by omega)
      (show (0 : Int) ≤ g.m_width by omega)]
  have hge : (0 : Int) ≤ y * g.m_width + x := by
    have := mul_nonneg h3 (le_of_lt hw)
    omega
  have hidx : (y * g.m_width + x).toNat < g.m_front.m_mat.length := by
    rw [hflen]
    omega
  rw [List.getElem?_eq_getElem hidx]
  rfl

/-- C10: on a wellformed grid, the named accessor `Grid::get` applies no toroidal
remapping — out of bounds it propagates the `UnrolledMatrix::get` bounds-check error
(`none`), while `Grid::operator()` still resolves such coordinates to a cell; on
in-bounds coordinates the two accessors agree exactly (and both succeed). -/
theorem get_no_wrap (g : Grid) (h : g.Wf) (x y : Int) :
    (g.isInBound x y = false →
        Grid.get g x y = none ∧ (g.opIndex x y).isSome = true)
  ∧ (g.isInBound x y = true →
        Grid.get g x y = g.opIndex x y ∧ (Grid.get g x y).isSome = true) := by
  have hW := h
  obtain ⟨hw, hh, hfw, hfh, hbw, hbh, hflen, hblen⟩ := h
  constructor
  · intro hb
    have hnb : ¬ (0 ≤ x ∧ x < g.m_width ∧ 0 ≤ y ∧ y < g.m_height) := by
      rw [← isInBound_iff]
      simp [hb]
    constructor
    · show g.m_front.get x y = none
      unfold UnrolledMatrix.get
      rw [hfw, hfh, if_pos (by omega)]
    · unfold Grid.opIndex
      rw [if_neg (by simp [hb])]
      refine get_isSome_of_inBound g hW _ _ ?_
      rw [isInBound_iff, effCoord_eq_emod _ _ hw, effCoord_eq_emod _ _ hh]
      exact ⟨Int.emod_nonneg x (by omega), Int.emod_lt_of_pos x hw,
        Int.emod_nonneg y (by omega), Int.emod_lt_of_pos y hh⟩
  · intro hb
    refine ⟨?_, get_isSome_of_inBound g hW x y hb⟩
    unfold Grid.opIndex
    rw [if_pos hb]

/-- C10 witness: `get_no_wrap` applied to `gridW` at the out-of-bounds coordinate
`(1, -1)` (and, inside the conjunction, the in-bounds direction at that point). -/
theorem get_no_wrap_witness :
    gridW.Wf
  ∧ ((gridW.isInBound 1 (-1) = false →
        Grid.get gridW 1 (-1) = none ∧ (gridW.opIndex 1 (-1)).isSome = true)
    ∧ (gridW.isInBound 1 (-1) = true →
        Grid.get gridW 1 (-1) = gridW.opIndex 1 (-1)
      ∧ (Grid.get gridW 1 (-1)).isSome = true)) :=
  ⟨by decide, get_no_wrap gridW (by decide) 1 (-1)⟩
